import Mathlib

/-!
# Verification of the httpmon prober and aggregator

A shallow embedding of the httpmon Go sources:

* `engine.ExecutePing` (prober, `engine/ping.go`), modelled as a pure
  function over the monitor configuration and an abstract network outcome;
* `engine.Summarize` (aggregator, `engine/summary.go`);
* the CLI formatter/parser pairs (`cli/formatter.go`, `cli/in.go`).

Go `time.Duration` values are modelled as `Int` nanosecond counts
(`time.Duration` is an `int64` of nanoseconds).  Go integer division
truncates toward zero, so `Duration.Milliseconds()` is `Int.tdiv` by
10^6.  `Duration.Seconds()` returns a `float64`; its truncation to `int`
is modelled as `Int.tdiv` by 10^9, which agrees with the Go computation
for all durations whose magnitude is far below 2^53 nanoseconds.
Go `float64` percentage arithmetic is modelled over `ℚ`.
-/

namespace Httpmon

/-- Go `time.Duration`: a signed count of nanoseconds. -/
abbrev Duration := Int

/-- `engine.Monitor`: what and how to monitor. -/
structure Monitor where
  Name : String
  URL : String
  Retries : Int
  RetryInterval : Int
  ConnectTimeout : Duration
  ResponseTimeout : Duration
  MaxRedirects : Int
  AcceptedStatusCodes : List Int
  HTTPMethod : String
  Headers : List (String × String)

/-- A broken-down UTC timestamp, the representation that `time.RFC3339`
formatting and parsing exchange.  The instant/calendar conversion inside
Go's `time` package is outside the repository; probe timestamps are
modelled directly in this broken-down form. -/
structure DateTime where
  Year : Nat
  Month : Nat
  Day : Nat
  Hour : Nat
  Minute : Nat
  Second : Nat
deriving DecidableEq

/-- `engine.Ping`: the result of one monitoring event. -/
structure Ping where
  Name : String
  URL : String
  Status : String
  Timestamp : DateTime
  StatusCode : Int
  Message : String
  DNSTime : Duration
  ConnectionTime : Duration
  TLSTime : Duration
  TTFB : Duration
  DownloadTime : Duration
  TotalResponseTime : Duration
  CertRemainingValidity : Duration
deriving DecidableEq

/-- `engine.SummaryStats`: per-endpoint aggregate statistics.
`Availability` is a Go `float64` percentage, modelled over `ℚ`. -/
structure SummaryStats where
  Endpoint : String
  Availability : ℚ
  AvgResponseTime : Duration
  MedianResponseTime : Duration
  Percentile99ResponseTime : Duration
  LongestResponseTime : Duration
  ShortestCertValidityTime : Duration
  WorstMonitor : String
  NumberOfMeasurements : Nat
  NumberOfFailedMeasurements : Nat
  MonitoringDuration : String

/-- The data of a received HTTP response together with the values the
`httptrace` callbacks recorded while it was obtained.  `statusText` is
`http.StatusText(resp.StatusCode)`. -/
structure ResponseData where
  statusCode : Int
  statusText : String
  dnsTime : Duration
  connectionTime : Duration
  tlsTime : Duration
  ttfb : Duration
  downloadTime : Duration
  totalResponseTime : Duration
  certRemainingValidity : Duration

/-- The three ways `ExecutePing`'s interaction with the network can end:
`http.NewRequest` fails, `client.Do` fails (DNS, connect, TLS, timeout,
transport), or a response is received. -/
inductive NetOutcome where
  | reqError (msg : String)
  | transportError (msg : String)
  | response (r : ResponseData)

/-- `engine.isStatusCodeAccepted`: linear scan of the accepted list. -/
def isStatusCodeAccepted (statusCode : Int) (acceptedStatusCodes : List Int) : Bool :=
  acceptedStatusCodes.any (fun code => statusCode == code)

/-- `engine.ExecutePing`.  The two error returns build a `Ping` giving
only `Name`, `URL`, `Status`, `Timestamp` and `Message`; every other Go
struct field is left at its zero value.  On a response, `Status` is
`"Success"` exactly when the status code is accepted. -/
def executePing (monitor : Monitor) (now : DateTime) (outcome : NetOutcome) : Ping :=
  match outcome with
  | .reqError msg =>
    { Name := monitor.Name, URL := monitor.URL, Status := "Failed", Timestamp := now
      StatusCode := 0, Message := msg
      DNSTime := 0, ConnectionTime := 0, TLSTime := 0, TTFB := 0, DownloadTime := 0
      TotalResponseTime := 0, CertRemainingValidity := 0 }
  | .transportError msg =>
    { Name := monitor.Name, URL := monitor.URL, Status := "Failed", Timestamp := now
      StatusCode := 0, Message := msg
      DNSTime := 0, ConnectionTime := 0, TLSTime := 0, TTFB := 0, DownloadTime := 0
      TotalResponseTime := 0, CertRemainingValidity := 0 }
  | .response r =>
    { Name := monitor.Name, URL := monitor.URL
      Status := if isStatusCodeAccepted r.statusCode monitor.AcceptedStatusCodes then "Success" else "Failed"
      Timestamp := now
      StatusCode := r.statusCode, Message := r.statusText
      DNSTime := r.dnsTime, ConnectionTime := r.connectionTime, TLSTime := r.tlsTime
      TTFB := r.ttfb, DownloadTime := r.downloadTime
      TotalResponseTime := r.totalResponseTime
      CertRemainingValidity := r.certRemainingValidity }

/-- `int(^uint(0) >> 1)`: the largest 64-bit signed integer. -/
def maxInt : Int := 2 ^ 63 - 1

/-- The per-endpoint loop state of `engine.Summarize`.  `responseTimes`,
`totalResponseTime`, `longestResponseTime` and `worstPerformance` hold
*millisecond* counts (`pTotalResponseTime`), while `shortestCertValidity`
holds a *seconds* count after its first update; the comparisons in
`stepAcc` nevertheless use the raw nanosecond values, exactly as the Go
loop does. -/
structure GroupAcc where
  totalResponseTime : Int
  successCount : Nat
  failedCount : Nat
  responseTimes : List Int
  longestResponseTime : Int
  shortestCertValidity : Int
  worstMonitorName : String
  worstPerformance : Int

/-- The zero-initialised loop state (`shortestCertValidity` is set to max int). -/
def initAcc : GroupAcc :=
  { totalResponseTime := 0, successCount := 0, failedCount := 0, responseTimes := []
    longestResponseTime := 0, shortestCertValidity := maxInt
    worstMonitorName := "", worstPerformance := 0 }

/-- One iteration of the `for _, p := range data` loop of `engine.Summarize`. -/
def stepAcc (acc : GroupAcc) (p : Ping) : GroupAcc :=
  let pTotalResponseTime : Int := p.TotalResponseTime.tdiv 1000000
  { totalResponseTime := acc.totalResponseTime + pTotalResponseTime
    successCount := if p.Status = "Success" then acc.successCount + 1 else acc.successCount
    failedCount := if p.Status = "Success" then acc.failedCount else acc.failedCount + 1
    responseTimes := acc.responseTimes ++ [pTotalResponseTime]
    longestResponseTime :=
      if p.TotalResponseTime > acc.longestResponseTime then pTotalResponseTime
      else acc.longestResponseTime
    shortestCertValidity :=
      if p.CertRemainingValidity < acc.shortestCertValidity then p.CertRemainingValidity.tdiv 1000000000
      else acc.shortestCertValidity
    worstMonitorName :=
      if p.TotalResponseTime > acc.worstPerformance then p.Name else acc.worstMonitorName
    worstPerformance :=
      if p.TotalResponseTime > acc.worstPerformance then pTotalResponseTime
      else acc.worstPerformance }

/-- `int(float64(len(responseTimes))*0.99) - 1`, clamped below at `0`.
For every length `n` below roughly `8 * 10^13` the `float64` product
`float64(n) * 0.99` truncates to `⌊99 * n / 100⌋`, so the index is
modelled by exact integer arithmetic (`Nat` subtraction clamps at `0`,
matching the `if percentileIndex < 0` guard). -/
def percentileIndex (n : Nat) : Nat := 99 * n / 100 - 1

/-- Truncation toward zero of a rational, as Go's `time.Duration(f)`
conversion truncates a `float64`. -/
def ratTrunc (q : ℚ) : Int := if q < 0 then ⌈q⌉ else ⌊q⌋

/-- The body of the `for endpoint, data := range endpointsData` loop of
`engine.Summarize`: the statistics stored for one endpoint, computed from
that endpoint's pings in input order. -/
def summarizeGroup (endpoint : String) (data : List Ping) : SummaryStats :=
  let acc := data.foldl stepAcc initAcc
  let responseTimes := List.insertionSort (fun a b => a ≤ b) acc.responseTimes
  let medianResponseTime : Int :=
    if responseTimes.length > 0 then responseTimes.getD (responseTimes.length / 2) 0 else 0
  let percentile99ResponseTime : Int :=
    if responseTimes.length > 0 then responseTimes.getD (percentileIndex responseTimes.length) 0 else 0
  let availability : ℚ := ((acc.successCount : ℚ) / (data.length : ℚ)) * 100
  let avgResponseTime : ℚ := (acc.totalResponseTime : ℚ) / (data.length : ℚ)
  { Endpoint := endpoint
    Availability := availability
    AvgResponseTime := ratTrunc avgResponseTime * 1000000
    MedianResponseTime := medianResponseTime * 1000000
    Percentile99ResponseTime := percentile99ResponseTime * 1000000
    LongestResponseTime := acc.longestResponseTime * 1000000
    ShortestCertValidityTime := acc.shortestCertValidity * 1000000
    WorstMonitor := acc.worstMonitorName
    NumberOfMeasurements := data.length
    NumberOfFailedMeasurements := acc.failedCount
    MonitoringDuration := "unknown" }

/-- `engine.Summarize`.  The Go code groups pings by URL into a map
(each group keeps input order), computes one `SummaryStats` per endpoint,
and finally sorts the collected entries by `Endpoint` with
`strings.Compare`.  Because each endpoint contributes exactly one entry
and the final sort is by the (distinct) endpoint strings, the output does
not depend on Go's map iteration order; the model enumerates the distinct
URLs via `List.dedup`.  `strings.Compare` is byte-lexicographic, which on
UTF-8 strings coincides with the codepoint-lexicographic `String` order
used here. -/
def summarize (pings : List Ping) : List SummaryStats :=
  let urls := (pings.map Ping.URL).dedup
  let stats := urls.map (fun u => summarizeGroup u (pings.filter (fun p => p.URL == u)))
  List.insertionSort (fun a b => a.Endpoint ≤ b.Endpoint) stats

/-- The decimal digit character for `n` (used with `n ≤ 9`). -/
def digitChar (n : Nat) : Char := Char.ofNat (48 + n)

/-- The value of a decimal digit character, `none` for a non-digit
(`strconv`'s `c - '0'` with range check). -/
def digitVal (c : Char) : Option Nat :=
  if 48 ≤ c.toNat ∧ c.toNat ≤ 57 then some (c.toNat - 48) else none

/-- The decimal digits of `n`, most significant first (the digits
`strconv.Itoa` and `strconv.FormatInt(_, 10)` emit). -/
def natDigits (n : Nat) : List Char :=
  if _h : n < 10 then [digitChar n]
  else natDigits (n / 10) ++ [digitChar (n % 10)]
decreasing_by
  exact Nat.div_lt_self (by omega) (by omega)

/-- The digit-consuming loop of `strconv.Atoi`. -/
def readNatAux : List Char → Nat → Option Nat
  | [], acc => some acc
  | c :: cs, acc =>
    match digitVal c with
    | some d => readNatAux cs (10 * acc + d)
    | none => none

/-- Parse a non-empty all-digit string. -/
def readNat (cs : List Char) : Option Nat :=
  if cs.isEmpty then none else readNatAux cs 0

/-- `strconv.Itoa` / `strconv.FormatInt(_, 10)`: canonical decimal,
`-`-prefixed when negative. -/
def formatInt (i : Int) : String :=
  if i < 0 then String.mk ('-' :: natDigits (-i).toNat) else String.mk (natDigits i.toNat)

/-- `strconv.Atoi` on a character list: an optional sign followed by at
least one digit. -/
def parseIntAux : List Char → Option Int
  | [] => none
  | c :: cs =>
    if c = '-' then (readNat cs).map (fun n => -(n : Int))
    else if c = '+' then (readNat cs).map (fun n => (n : Int))
    else (readNat (c :: cs)).map (fun n => (n : Int))

/-- `strconv.Atoi` (as used by `In.ParseInt`). -/
def parseInt (s : String) : Option Int := parseIntAux s.data

/-- `defaultFormatter.FormatDurationms`: the duration's millisecond count
in decimal (`strconv.FormatInt(d.Milliseconds(), 10)`). -/
def formatDurationms (d : Duration) : String := formatInt (d.tdiv 1000000)

/-- `defaultFormatter.FormatDurations`: the duration's second count in
decimal (`strconv.FormatInt(d.Milliseconds()/1000, 10)`). -/
def formatDurations (d : Duration) : String := formatInt ((d.tdiv 1000000).tdiv 1000)

/-- `In.ParseDurationms`: `strconv.Atoi` scaled by `time.Millisecond`. -/
def parseDurationms (s : String) : Option Duration :=
  (parseInt s).map (fun v => v * 1000000)

/-- `In.ParseDurations`: `strconv.Atoi` scaled by `time.Second`. -/
def parseDurations (s : String) : Option Duration :=
  (parseInt s).map (fun v => v * 1000000000)

/-- Two-digit zero-padded decimal, as `time.RFC3339` renders month, day,
hour, minute and second. -/
def pad2 (n : Nat) : List Char := [digitChar (n / 10), digitChar (n % 10)]

/-- Four-digit zero-padded decimal, as `time.RFC3339` renders the year. -/
def pad4 (n : Nat) : List Char :=
  [digitChar (n / 1000), digitChar (n / 100 % 10), digitChar (n / 10 % 10), digitChar (n % 10)]

/-- `defaultFormatter.FormatTime`: `t.Format(time.RFC3339)` for a UTC
timestamp of whole-second precision. -/
def formatTime (t : DateTime) : String :=
  String.mk (pad4 t.Year ++ '-' :: pad2 t.Month ++ '-' :: pad2 t.Day ++
    'T' :: pad2 t.Hour ++ ':' :: pad2 t.Minute ++ ':' :: pad2 t.Second ++ ['Z'])

/-- Parse two digit characters. -/
def parse2 (c1 c2 : Char) : Option Nat := do
  let a ← digitVal c1
  let b ← digitVal c2
  some (10 * a + b)

/-- Parse four digit characters. -/
def parse4 (c1 c2 c3 c4 : Char) : Option Nat := do
  let a ← parse2 c1 c2
  let b ← parse2 c3 c4
  some (100 * a + b)

/-- `time.Parse(time.RFC3339, s)` on a character list, restricted to the
canonical 20-character UTC form the formatter emits. -/
def parseTimeAux : List Char → Option DateTime
  | [y1, y2, y3, y4, '-', m1, m2, '-', d1, d2, 'T', h1, h2, ':', mi1, mi2, ':', s1, s2, 'Z'] => do
    let y ← parse4 y1 y2 y3 y4
    let mo ← parse2 m1 m2
    let d ← parse2 d1 d2
    let h ← parse2 h1 h2
    let mi ← parse2 mi1 mi2
    let sec ← parse2 s1 s2
    some ⟨y, mo, d, h, mi, sec⟩
  | _ => none

/-- `In.ParseTime`. -/
def parseTime (s : String) : Option DateTime := parseTimeAux s.data

/-- The 99th-percentile index exactly as the specification words it:
`max(0, ⌈n×0.99⌉−1)`. -/
def p99IndexSpec (n : Nat) : Nat := max 0 (⌈(n : ℚ) * (99 / 100)⌉₊ - 1)

/-- A fixed timestamp for concrete example pings. -/
def dtEpoch : DateTime := ⟨1970, 1, 1, 0, 0, 0⟩

/-- A concrete ping with the given agent name, URL, status, total
response time and certificate remaining validity; all other timings zero. -/
def mkPing (name url status : String) (total cert : Duration) : Ping :=
  { Name := name, URL := url, Status := status, Timestamp := dtEpoch, StatusCode := 200
    Message := "OK", DNSTime := 0, ConnectionTime := 0, TLSTime := 0, TTFB := 0
    DownloadTime := 0, TotalResponseTime := total, CertRemainingValidity := cert }

/-- Agent `a`, total response time 5ms. -/
def pingA : Ping := mkPing "a" "https://x.example" "Success" 5000000 0

/-- Agent `b`, total response time 3ms. -/
def pingB : Ping := mkPing "b" "https://x.example" "Success" 3000000 0

/-- Agent `a`, certificate remaining validity 20s. -/
def pingC : Ping := mkPing "a" "https://x.example" "Success" 0 20000000000

/-- Agent `b`, certificate remaining validity 10s. -/
def pingD : Ping := mkPing "b" "https://x.example" "Success" 0 10000000000

/-- Total response time 10ms. -/
def pingE : Ping := mkPing "a" "https://x.example" "Success" 10000000 0

/-- Total response time 20ms. -/
def pingF : Ping := mkPing "b" "https://x.example" "Success" 20000000 0

/-- Total response time 1.5ms: not a whole number of milliseconds. -/
def pingG : Ping := mkPing "a" "https://x.example" "Success" 1500000 0

/-- A failed ping. -/
def pingH : Ping := mkPing "a" "https://x.example" "Failed" 1000000 0

/-- A ping whose status is neither `Success` nor `Failed`. -/
def pingI : Ping := mkPing "a" "https://x.example" "Bogus" 1000000 0

/-- A second URL's ping. -/
def pingJ : Ping := mkPing "a" "https://y.example" "Success" 7000000 0

/-- A concrete monitor whose accepted-status-code set is empty. -/
def monitorEmptyAccept : Monitor :=
  { Name := "a", URL := "https://x.example", Retries := 2, RetryInterval := 10
    ConnectTimeout := 5000000000, ResponseTimeout := 5000000000, MaxRedirects := 3
    AcceptedStatusCodes := [], HTTPMethod := "GET", Headers := [] }

/-- A concrete `200 OK` response with small timings. -/
def response200 : ResponseData :=
  { statusCode := 200, statusText := "OK", dnsTime := 1000000, connectionTime := 2000000
    tlsTime := 3000000, ttfb := 4000000, downloadTime := 1000000
    totalResponseTime := 5000000, certRemainingValidity := 10000000000 }

/-- A concrete ping with whole-millisecond timings, whole-second
certificate validity and a valid timestamp, for the round-trip witness. -/
def pingRT : Ping :=
  { Name := "a", URL := "https://x.example", Status := "Success"
    Timestamp := ⟨2024, 12, 31, 23, 59, 7⟩, StatusCode := 200, Message := "OK"
    DNSTime := 1000000, ConnectionTime := 2000000, TLSTime := 3000000, TTFB := 4000000
    DownloadTime := 5000000, TotalResponseTime := 15000000
    CertRemainingValidity := 86400000000000 }

instance : IsTotal SummaryStats (fun a b => a.Endpoint ≤ b.Endpoint) :=
  ⟨fun a b => le_total a.Endpoint b.Endpoint⟩

instance : IsTrans SummaryStats (fun a b => a.Endpoint ≤ b.Endpoint) :=
  ⟨fun _ _ _ hab hbc => le_trans hab hbc⟩

/-! ## Properties of the per-group loop state -/

theorem summarizeGroup_Endpoint (u : String) (g : List Ping) :
    (summarizeGroup u g).Endpoint = u := rfl

theorem foldl_stepAcc_responseTimes (g : List Ping) (a : GroupAcc) :
    (List.foldl stepAcc a g).responseTimes
      = a.responseTimes ++ g.map (fun p => p.TotalResponseTime.tdiv 1000000) := by
  induction g generalizing a with
  | nil => simp
  | cons p g ih => simp [List.foldl_cons, ih, stepAcc]

theorem foldl_stepAcc_successCount (g : List Ping) (a : GroupAcc) :
    (List.foldl stepAcc a g).successCount
      = a.successCount + (g.filter (fun p => p.Status == "Success")).length := by
  induction g generalizing a with
  | nil => simp
  | cons p g ih =>
    by_cases hp : p.Status = "Success" <;>
      simp [List.foldl_cons, ih, stepAcc, hp, List.filter_cons] <;> omega

theorem foldl_stepAcc_failedCount (g : List Ping) (a : GroupAcc) :
    (List.foldl stepAcc a g).failedCount
      = a.failedCount + (g.filter (fun p => !(p.Status == "Success"))).length := by
  induction g generalizing a with
  | nil => simp
  | cons p g ih =>
    by_cases hp : p.Status = "Success" <;>
      simp [List.foldl_cons, ih, stepAcc, hp, List.filter_cons] <;> omega

theorem summarizeGroup_measurements (u : String) (g : List Ping) :
    (summarizeGroup u g).NumberOfMeasurements = g.length := rfl

theorem summarizeGroup_failedMeasurements (u : String) (g : List Ping) :
    (summarizeGroup u g).NumberOfFailedMeasurements
      = (g.filter (fun p => !(p.Status == "Success"))).length := by
  show (List.foldl stepAcc initAcc g).failedCount = _
  simpa [initAcc] using foldl_stepAcc_failedCount g initAcc

theorem summarizeGroup_availability (u : String) (g : List Ping) :
    (summarizeGroup u g).Availability
      = (((g.filter (fun p => p.Status == "Success")).length : ℚ) / (g.length : ℚ)) * 100 := by
  show ((List.foldl stepAcc initAcc g).successCount : ℚ) / (g.length : ℚ) * 100 = _
  rw [foldl_stepAcc_successCount g initAcc]
  norm_num [initAcc]

theorem summarizeGroup_median_eq (u : String) (g : List Ping) (hne : g ≠ []) :
    (summarizeGroup u g).MedianResponseTime
      = (List.insertionSort (fun a b : Int => a ≤ b)
          (g.map (fun p => p.TotalResponseTime.tdiv 1000000))).getD (g.length / 2) 0
        * 1000000 := by
  have hrt : (List.foldl stepAcc initAcc g).responseTimes
      = g.map (fun p => p.TotalResponseTime.tdiv 1000000) := by
    simpa [initAcc] using foldl_stepAcc_responseTimes g initAcc
  have hpos : 0 < g.length := List.length_pos.mpr hne
  simp only [summarizeGroup]
  rw [hrt]
  simp [List.length_insertionSort, List.length_map, hpos]

theorem summarizeGroup_p99_eq (u : String) (g : List Ping) (hne : g ≠ []) :
    (summarizeGroup u g).Percentile99ResponseTime
      = (List.insertionSort (fun a b : Int => a ≤ b)
          (g.map (fun p => p.TotalResponseTime.tdiv 1000000))).getD (percentileIndex g.length) 0
        * 1000000 := by
  have hrt : (List.foldl stepAcc initAcc g).responseTimes
      = g.map (fun p => p.TotalResponseTime.tdiv 1000000) := by
    simpa [initAcc] using foldl_stepAcc_responseTimes g initAcc
  have hpos : 0 < g.length := List.length_pos.mpr hne
  simp only [summarizeGroup]
  rw [hrt]
  simp [List.length_insertionSort, List.length_map, hpos]

/-- The floor-based index the code computes, written as the amended
specification words it. -/
theorem p99IndexFloor_eq_percentileIndex (n : Nat) :
    max 0 (⌊(n : ℚ) * (99 / 100)⌋₊ - 1) = percentileIndex n := by
  have hcast : ((n : ℚ) * (99 / 100)) = ((99 * n : ℕ) : ℚ) / ((100 : ℕ) : ℚ) := by
    push_cast
    ring
  rw [hcast, Nat.floor_div_nat, Nat.floor_natCast, percentileIndex]
  omega

/-! ## The output of Summarize -/

theorem summarize_endpoints_perm (pings : List Ping) :
    ((summarize pings).map SummaryStats.Endpoint).Perm (pings.map Ping.URL).dedup := by
  simp only [summarize]
  refine ((List.perm_insertionSort _ _).map _).trans ?_
  rw [List.map_map]
  have hmap : ∀ u ∈ (pings.map Ping.URL).dedup,
      (SummaryStats.Endpoint ∘ fun u => summarizeGroup u (pings.filter (fun p => p.URL == u))) u
        = id u := fun u _ => rfl
  rw [List.map_congr_left hmap, List.map_id]

/-! ## Decimal and timestamp round-trips -/

theorem digitVal_digitChar {d : Nat} (h : d ≤ 9) : digitVal (digitChar d) = some d := by
  interval_cases d <;> rfl

theorem digitChar_toNat {d : Nat} (h : d ≤ 9) : (digitChar d).toNat = 48 + d := by
  interval_cases d <;> rfl

theorem natDigits_ne_nil (n : Nat) : natDigits n ≠ [] := by
  rw [natDigits]
  split <;> simp

theorem natDigits_digits (n : Nat) : ∀ c ∈ natDigits n, 48 ≤ c.toNat ∧ c.toNat ≤ 57 := by
  induction n using Nat.strong_induction_on with
  | _ n ih =>
    rw [natDigits]
    split
    · next h =>
      intro c hc
      simp only [List.mem_singleton] at hc
      subst hc
      rw [digitChar_toNat (by omega)]
      omega
    · next h =>
      intro c hc
      rcases List.mem_append.mp hc with h1 | h2
      · exact ih (n / 10) (Nat.div_lt_self (by omega) (by omega)) c h1
      · simp only [List.mem_singleton] at h2
        subst h2
        rw [digitChar_toNat (by omega)]
        omega

theorem readNatAux_append (l₁ l₂ : List Char) (acc : Nat) :
    readNatAux (l₁ ++ l₂) acc = (readNatAux l₁ acc).bind (fun m => readNatAux l₂ m) := by
  induction l₁ generalizing acc with
  | nil => rfl
  | cons c cs ih =>
    cases hdv : digitVal c with
    | none => simp [readNatAux, hdv]
    | some d => simp [readNatAux, hdv, ih]

theorem readNatAux_natDigits (n : Nat) : ∀ acc : Nat,
    readNatAux (natDigits n) acc = some (acc * 10 ^ (natDigits n).length + n) := by
  induction n using Nat.strong_induction_on with
  | _ n ih =>
    intro acc
    rw [natDigits]
    split
    · next h =>
      simp [readNatAux, digitVal_digitChar (show n ≤ 9 by omega)]
      omega
    · next h =>
      rw [readNatAux_append, ih (n / 10) (Nat.div_lt_self (by omega) (by omega)) acc]
      simp only [Option.bind, readNatAux,
        digitVal_digitChar (show n % 10 ≤ 9 from by omega)]
      simp only [List.length_append, List.length_singleton, pow_succ]
      congr 1
      rw [← mul_assoc]
      generalize acc * 10 ^ (natDigits (n / 10)).length = A
      omega

theorem readNat_natDigits (n : Nat) : readNat (natDigits n) = some n := by
  rw [readNat, if_neg (by simp [List.isEmpty_iff, natDigits_ne_nil])]
  simpa using readNatAux_natDigits n 0

theorem parseInt_formatInt (i : Int) : parseInt (formatInt i) = some i := by
  rw [formatInt]
  by_cases hi : i < 0
  · rw [if_pos hi]
    show parseIntAux ('-' :: natDigits (-i).toNat) = some i
    simp [parseIntAux, readNat_natDigits, Int.toNat_of_nonneg (by omega : (0 : Int) ≤ -i)]
  · rw [if_neg hi]
    show parseIntAux (natDigits i.toNat) = some i
    obtain ⟨c, cs, hcons⟩ := List.exists_cons_of_ne_nil (natDigits_ne_nil i.toNat)
    have hb := natDigits_digits i.toNat c (by rw [hcons]; exact List.mem_cons_self _ _)
    have hcm : c ≠ '-' := by
      intro hc
      rw [hc] at hb
      exact absurd hb (by decide)
    have hcp : c ≠ '+' := by
      intro hc
      rw [hc] at hb
      exact absurd hb (by decide)
    rw [hcons, parseIntAux, if_neg hcm, if_neg hcp, ← hcons, readNat_natDigits]
    simp [Int.toNat_of_nonneg (by omega : (0 : Int) ≤ i)]

theorem parseDurationms_formatDurationms {d : Duration} (h : (1000000 : Int) ∣ d) :
    parseDurationms (formatDurationms d) = some d := by
  obtain ⟨k, rfl⟩ := h
  rw [formatDurationms, parseDurationms, parseInt_formatInt,
    Int.mul_tdiv_cancel_left _ (by norm_num)]
  simp [Int.mul_comm]

theorem parseDurations_formatDurations {d : Duration} (h : (1000000000 : Int) ∣ d) :
    parseDurations (formatDurations d) = some d := by
  obtain ⟨k, rfl⟩ := h
  rw [formatDurations, parseDurations]
  rw [show (1000000000 : Int) * k = 1000000 * (1000 * k) from by ring,
    Int.mul_tdiv_cancel_left _ (by norm_num),
    Int.mul_tdiv_cancel_left _ (by norm_num), parseInt_formatInt]
  simp only [Option.map_some']
  congr 1
  ring

theorem parseTime_formatTime (t : DateTime)
    (hy : t.Year ≤ 9999) (hmo : t.Month ≤ 12) (hd : t.Day ≤ 31)
    (hh : t.Hour ≤ 23) (hmi : t.Minute ≤ 59) (hs : t.Second ≤ 59) :
    parseTime (formatTime t) = some t := by
  obtain ⟨y, mo, d, h, mi, s⟩ := t
  simp only at hy hmo hd hh hmi hs
  show parseTimeAux (pad4 y ++ '-' :: pad2 mo ++ '-' :: pad2 d ++
    'T' :: pad2 h ++ ':' :: pad2 mi ++ ':' :: pad2 s ++ ['Z']) = _
  simp only [pad4, pad2, List.cons_append, List.nil_append]
  rw [parseTimeAux]
  rw [parse4, parse2, parse2, parse2, parse2, parse2, parse2, parse2]
  rw [digitVal_digitChar (by omega), digitVal_digitChar (by omega),
    digitVal_digitChar (by omega), digitVal_digitChar (by omega),
    digitVal_digitChar (by omega), digitVal_digitChar (by omega),
    digitVal_digitChar (by omega), digitVal_digitChar (by omega),
    digitVal_digitChar (by omega), digitVal_digitChar (by omega),
    digitVal_digitChar (by omega), digitVal_digitChar (by omega),
    digitVal_digitChar (by omega), digitVal_digitChar (by omega)]
  simp only [Option.bind_eq_bind, Option.some_bind, Option.some.injEq, DateTime.mk.injEq]
  omega

/-- Every ping of a group is counted either as a success or as a failure. -/
theorem filter_status_partition (g : List Ping) :
    (g.filter (fun p => p.Status == "Success")).length
      + (g.filter (fun p => !(p.Status == "Success"))).length = g.length := by
  induction g with
  | nil => rfl
  | cons p l ih =>
    by_cases hp : p.Status = "Success" <;> simp [List.filter_cons, hp] <;> omega

/-! ## The claims -/

/-- C1: `ExecutePing` returns a result with `Status = "Success"` iff a
response was received whose HTTP status code is in the configured
accepted set (in particular an empty accepted set makes every response
`Failed`); any failure before a response is obtained yields
`Status = "Failed"`, `StatusCode = 0`, and zero for every timing field
and for the certificate-validity field. -/
theorem executePing_status_contract (monitor : Monitor) (now : DateTime) :
    (∀ o : NetOutcome, (executePing monitor now o).Status = "Success" ↔
      ∃ r, o = NetOutcome.response r
        ∧ isStatusCodeAccepted r.statusCode monitor.AcceptedStatusCodes = true)
    ∧ (∀ r : ResponseData, monitor.AcceptedStatusCodes = [] →
        (executePing monitor now (NetOutcome.response r)).Status = "Failed")
    ∧ (∀ msg : String,
        (executePing monitor now (NetOutcome.reqError msg)).Status = "Failed"
        ∧ (executePing monitor now (NetOutcome.reqError msg)).StatusCode = 0
        ∧ (executePing monitor now (NetOutcome.reqError msg)).DNSTime = 0
        ∧ (executePing monitor now (NetOutcome.reqError msg)).ConnectionTime = 0
        ∧ (executePing monitor now (NetOutcome.reqError msg)).TLSTime = 0
        ∧ (executePing monitor now (NetOutcome.reqError msg)).TTFB = 0
        ∧ (executePing monitor now (NetOutcome.reqError msg)).DownloadTime = 0
        ∧ (executePing monitor now (NetOutcome.reqError msg)).TotalResponseTime = 0
        ∧ (executePing monitor now (NetOutcome.reqError msg)).CertRemainingValidity = 0)
    ∧ (∀ msg : String,
        (executePing monitor now (NetOutcome.transportError msg)).Status = "Failed"
        ∧ (executePing monitor now (NetOutcome.transportError msg)).StatusCode = 0
        ∧ (executePing monitor now (NetOutcome.transportError msg)).DNSTime = 0
        ∧ (executePing monitor now (NetOutcome.transportError msg)).ConnectionTime = 0
        ∧ (executePing monitor now (NetOutcome.transportError msg)).TLSTime = 0
        ∧ (executePing monitor now (NetOutcome.transportError msg)).TTFB = 0
        ∧ (executePing monitor now (NetOutcome.transportError msg)).DownloadTime = 0
        ∧ (executePing monitor now (NetOutcome.transportError msg)).TotalResponseTime = 0
        ∧ (executePing monitor now (NetOutcome.transportError msg)).CertRemainingValidity = 0) := by
  refine ⟨fun o => ?_, fun r hempty => ?_, fun msg => ?_, fun msg => ?_⟩
  · cases o with
    | reqError msg => simp [executePing]
    | transportError msg => simp [executePing]
    | response r =>
      by_cases hacc : isStatusCodeAccepted r.statusCode monitor.AcceptedStatusCodes
      · simp only [executePing, if_pos hacc]
        simp only [NetOutcome.response.injEq, true_iff]
        exact ⟨r, rfl, hacc⟩
      · simp [executePing, hacc]
  · simp [executePing, hempty, isStatusCodeAccepted]
  · exact ⟨rfl, rfl, rfl, rfl, rfl, rfl, rfl, rfl, rfl⟩
  · exact ⟨rfl, rfl, rfl, rfl, rfl, rfl, rfl, rfl, rfl⟩

/-- C1 witness: the empty-accepted-set monitor makes a 200 response Failed. -/
theorem executePing_status_contract_witness :
    monitorEmptyAccept.AcceptedStatusCodes = []
    ∧ (executePing monitorEmptyAccept dtEpoch (NetOutcome.response response200)).Status
        = "Failed" :=
  ⟨rfl, (executePing_status_contract monitorEmptyAccept dtEpoch).2.1 response200 rfl⟩

/-- C2: `Summarize` returns exactly one entry per distinct URL of the
input (hence an empty output for an empty input), and the entries are
sorted strictly ascending by endpoint URL (lexicographic order; on UTF-8
strings codepoint order coincides with byte order). -/
theorem summarize_sorted_unique_endpoints (pings : List Ping) :
    List.Sorted (fun a b : String => a < b) ((summarize pings).map SummaryStats.Endpoint)
    ∧ ∀ u : String,
        u ∈ (summarize pings).map SummaryStats.Endpoint ↔ u ∈ pings.map Ping.URL := by
  have hperm := summarize_endpoints_perm pings
  have hnodup : ((summarize pings).map SummaryStats.Endpoint).Nodup :=
    hperm.nodup_iff.mpr (List.nodup_dedup _)
  have hsle : List.Sorted (fun a b : String => a ≤ b)
      ((summarize pings).map SummaryStats.Endpoint) := by
    simp only [summarize]
    exact List.pairwise_map.mpr (List.sorted_insertionSort _ _)
  exact ⟨hsle.lt_of_le hnodup, fun u => hperm.mem_iff.trans (List.mem_dedup)⟩

/-- C3, evaluated at the failing input: for the group [agent "a" with
5ms, agent "b" with 3ms] the summary's `WorstMonitor` is `"b"`, although
agent "a" holds the strictly maximal total response time.  The loop
compares the raw nanosecond value `int(p.TotalResponseTime)` against
`worstPerformance`, which stores a millisecond count, so a later smaller
result overwrites the maximum. -/
theorem summarize_worstMonitor_eval :
    (summarizeGroup "https://x.example" [pingA, pingB]).WorstMonitor = "b"
    ∧ pingA.Name = "a" ∧ pingB.Name = "b"
    ∧ pingB.TotalResponseTime < pingA.TotalResponseTime := by
  decide

/-- C4, evaluated at the failing input: for the group [5ms, 3ms] the
summary's `LongestResponseTime` is 3ms, not the maximum 5ms, because the
loop compares nanoseconds against the stored millisecond count. -/
theorem summarize_longest_eval :
    (summarizeGroup "https://x.example" [pingA, pingB]).LongestResponseTime = 3000000
    ∧ pingA.TotalResponseTime = 5000000 ∧ pingB.TotalResponseTime = 3000000
    ∧ (summarizeGroup "https://x.example" [pingA, pingB]).LongestResponseTime
        ≠ max pingA.TotalResponseTime pingB.TotalResponseTime := by
  decide

/-- C5, evaluated at the failing input: for the group [cert validity
20s, cert validity 10s] the summary's `ShortestCertValidityTime` is a
20-*millisecond* duration, not the minimum 10s: the loop compares the raw
nanosecond value against the stored seconds count (so the second, smaller
certificate never replaces the first), and the stored seconds count is
finally multiplied by `time.Millisecond`. -/
theorem summarize_shortestCert_eval :
    (summarizeGroup "https://x.example" [pingC, pingD]).ShortestCertValidityTime = 20000000
    ∧ pingC.CertRemainingValidity = 20000000000
    ∧ pingD.CertRemainingValidity = 10000000000
    ∧ (summarizeGroup "https://x.example" [pingC, pingD]).ShortestCertValidityTime
        ≠ min pingC.CertRemainingValidity pingD.CertRemainingValidity := by
  decide

/-- C6 counterexample: for the two-element group [10ms, 20ms] the code's
`Percentile99ResponseTime` is 10ms, but the element at the claimed index
`max(0, ⌈n×0.99⌉−1) = 1` of the sorted total response times is 20ms. -/
theorem percentile99_ceil_index_false :
    ¬ ((summarizeGroup "https://x.example" [pingE, pingF]).Percentile99ResponseTime
        = (List.insertionSort (fun a b : Int => a ≤ b)
            ([pingE, pingF].map Ping.TotalResponseTime)).getD
            (p99IndexSpec ([pingE, pingF] : List Ping).length) 0) := by
  have h2 : p99IndexSpec 2 = 1 := by
    rw [p99IndexSpec]
    norm_num
    rw [Nat.ceil_eq_iff (by norm_num)]
    norm_num
  simp only [show ([pingE, pingF] : List Ping).length = 2 from rfl, h2]
  decide

/-- C6 (amended): for every non-empty group, `Percentile99ResponseTime`
equals, as a count of milliseconds, the element at index
`max(0, ⌊n×0.99⌋−1)` of the group's millisecond-truncated
total-response-time values sorted ascending. -/
theorem summarizeGroup_percentile99_floor (u : String) (g : List Ping) (hne : g ≠ []) :
    (summarizeGroup u g).Percentile99ResponseTime
      = (List.insertionSort (fun a b : Int => a ≤ b)
          (g.map (fun p => p.TotalResponseTime.tdiv 1000000))).getD
          (max 0 (⌊(g.length : ℚ) * (99 / 100)⌋₊ - 1)) 0 * 1000000 := by
  rw [p99IndexFloor_eq_percentileIndex]
  have hrt : (List.foldl stepAcc initAcc g).responseTimes
      = g.map (fun p => p.TotalResponseTime.tdiv 1000000) := by
    simpa [initAcc] using foldl_stepAcc_responseTimes g initAcc
  have hpos : 0 < g.length := List.length_pos.mpr hne
  simp only [summarizeGroup]
  rw [hrt]
  simp [List.length_insertionSort, List.length_map, hpos]

/-- C6 witness: the amended index rule evaluated on the group [10ms, 20ms]. -/
theorem summarizeGroup_percentile99_floor_witness :
    ([pingE, pingF] : List Ping) ≠ []
    ∧ (summarizeGroup "https://x.example" [pingE, pingF]).Percentile99ResponseTime
        = (List.insertionSort (fun a b : Int => a ≤ b)
            ([pingE, pingF].map (fun p => p.TotalResponseTime.tdiv 1000000))).getD
            (max 0 (⌊(([pingE, pingF] : List Ping).length : ℚ) * (99 / 100)⌋₊ - 1)) 0
          * 1000000 :=
  ⟨by decide, summarizeGroup_percentile99_floor "https://x.example" [pingE, pingF] (by decide)⟩

/-- C7 counterexample: for the one-element group [1.5ms] the code's
`MedianResponseTime` is 1ms (the millisecond truncation), not the
element 1.5ms of the sorted total-response-time values. -/
theorem median_exact_duration_false :
    ¬ ((summarizeGroup "https://x.example" [pingG]).MedianResponseTime
        = (List.insertionSort (fun a b : Int => a ≤ b)
            ([pingG].map Ping.TotalResponseTime)).getD
            (([pingG] : List Ping).length / 2) 0) := by
  decide

/-- C7 (amended): for every non-empty group, `MedianResponseTime`
equals, as a count of milliseconds, the element at index `⌊n/2⌋` of the
group's millisecond-truncated total-response-time values sorted
ascending (the upper-middle element for even `n`). -/
theorem summarizeGroup_median_truncated (u : String) (g : List Ping) (hne : g ≠ []) :
    (summarizeGroup u g).MedianResponseTime
      = (List.insertionSort (fun a b : Int => a ≤ b)
          (g.map (fun p => p.TotalResponseTime.tdiv 1000000))).getD (g.length / 2) 0
        * 1000000 := by
  have hrt : (List.foldl stepAcc initAcc g).responseTimes
      = g.map (fun p => p.TotalResponseTime.tdiv 1000000) := by
    simpa [initAcc] using foldl_stepAcc_responseTimes g initAcc
  have hpos : 0 < g.length := List.length_pos.mpr hne
  simp only [summarizeGroup]
  rw [hrt]
  simp [List.length_insertionSort, List.length_map, hpos]

/-- C7 witness: for the sorted group [10ms, 20ms, 30ms, 40ms] the median
is the upper-middle element 30ms. -/
theorem summarizeGroup_median_truncated_witness :
    ([mkPing "a" "https://x.example" "Success" 10000000 0,
      mkPing "a" "https://x.example" "Success" 20000000 0,
      mkPing "a" "https://x.example" "Success" 30000000 0,
      mkPing "a" "https://x.example" "Success" 40000000 0] : List Ping) ≠ []
    ∧ (summarizeGroup "https://x.example"
        [mkPing "a" "https://x.example" "Success" 10000000 0,
         mkPing "a" "https://x.example" "Success" 20000000 0,
         mkPing "a" "https://x.example" "Success" 30000000 0,
         mkPing "a" "https://x.example" "Success" 40000000 0]).MedianResponseTime = 30000000 := by
  refine ⟨by decide, ?_⟩
  rw [summarizeGroup_median_truncated "https://x.example" _ (by decide)]
  decide

/-- C8: for every non-empty group of probe results (whose statuses are
the data model's `"Success"`/`"Failed"`), the summary reports the group
size, the number of `"Failed"` results, and availability
`100 × (n − f) / n`. -/
theorem summarizeGroup_counts_availability (u : String) (g : List Ping)
    (_hne : g ≠ [])
    (hbin : ∀ p ∈ g, p.Status = "Success" ∨ p.Status = "Failed") :
    (summarizeGroup u g).NumberOfMeasurements = g.length
    ∧ (summarizeGroup u g).NumberOfFailedMeasurements
        = (g.filter (fun p => p.Status == "Failed")).length
    ∧ (summarizeGroup u g).Availability
        = 100 * ((g.length : ℚ) - ((g.filter (fun p => p.Status == "Failed")).length : ℚ))
          / (g.length : ℚ) := by
  have hfe : g.filter (fun p => p.Status == "Failed")
      = g.filter (fun p => !(p.Status == "Success")) :=
    List.filter_congr (fun p hp => by rcases hbin p hp with h | h <;> rw [h] <;> rfl)
  refine ⟨rfl, ?_, ?_⟩
  · rw [summarizeGroup_failedMeasurements, hfe]
  · rw [summarizeGroup_availability, hfe]
    have hs : ((g.filter (fun p => p.Status == "Success")).length : ℚ)
        = (g.length : ℚ) - ((g.filter (fun p => !(p.Status == "Success"))).length : ℚ) := by
      have hp := filter_status_partition g
      rw [← hp]
      push_cast
      ring
    rw [hs]
    ring

/-- C8 witness: 2 Success and 1 Failed results give availability 200/3;
with 3 Success and 1 Failed it would be 75. -/
theorem summarizeGroup_counts_availability_witness :
    ([pingE, pingF, pingH] : List Ping) ≠ []
    ∧ (∀ p ∈ ([pingE, pingF, pingH] : List Ping),
        p.Status = "Success" ∨ p.Status = "Failed")
    ∧ ((summarizeGroup "https://x.example" [pingE, pingF, pingH]).NumberOfMeasurements
          = ([pingE, pingF, pingH] : List Ping).length
      ∧ (summarizeGroup "https://x.example" [pingE, pingF, pingH]).NumberOfFailedMeasurements
          = (([pingE, pingF, pingH] : List Ping).filter
              (fun p => p.Status == "Failed")).length
      ∧ (summarizeGroup "https://x.example" [pingE, pingF, pingH]).Availability
          = 100 * ((([pingE, pingF, pingH] : List Ping).length : ℚ)
              - ((([pingE, pingF, pingH] : List Ping).filter
                  (fun p => p.Status == "Failed")).length : ℚ))
            / (([pingE, pingF, pingH] : List Ping).length : ℚ)) :=
  ⟨by decide, by decide,
    summarizeGroup_counts_availability "https://x.example" [pingE, pingF, pingH]
      (by decide) (by decide)⟩

/-- C9: formatting each field of a probe result with the default
formatter and parsing it back with the corresponding `In` parser
reproduces the field exactly, for whole-millisecond durations,
whole-second certificate validity, and a valid whole-second timestamp. -/
theorem ping_field_roundTrip (p : Ping)
    (h1 : (1000000 : Int) ∣ p.DNSTime) (h2 : (1000000 : Int) ∣ p.ConnectionTime)
    (h3 : (1000000 : Int) ∣ p.TLSTime) (h4 : (1000000 : Int) ∣ p.TTFB)
    (h5 : (1000000 : Int) ∣ p.DownloadTime) (h6 : (1000000 : Int) ∣ p.TotalResponseTime)
    (h7 : (1000000000 : Int) ∣ p.CertRemainingValidity)
    (hy : p.Timestamp.Year ≤ 9999) (hmo : p.Timestamp.Month ≤ 12)
    (hd : p.Timestamp.Day ≤ 31) (hh : p.Timestamp.Hour ≤ 23)
    (hmi : p.Timestamp.Minute ≤ 59) (hs : p.Timestamp.Second ≤ 59) :
    parseDurationms (formatDurationms p.DNSTime) = some p.DNSTime
    ∧ parseDurationms (formatDurationms p.ConnectionTime) = some p.ConnectionTime
    ∧ parseDurationms (formatDurationms p.TLSTime) = some p.TLSTime
    ∧ parseDurationms (formatDurationms p.TTFB) = some p.TTFB
    ∧ parseDurationms (formatDurationms p.DownloadTime) = some p.DownloadTime
    ∧ parseDurationms (formatDurationms p.TotalResponseTime) = some p.TotalResponseTime
    ∧ parseDurations (formatDurations p.CertRemainingValidity)
        = some p.CertRemainingValidity
    ∧ parseTime (formatTime p.Timestamp) = some p.Timestamp
    ∧ parseInt (formatInt p.StatusCode) = some p.StatusCode :=
  ⟨parseDurationms_formatDurationms h1, parseDurationms_formatDurationms h2,
    parseDurationms_formatDurationms h3, parseDurationms_formatDurationms h4,
    parseDurationms_formatDurationms h5, parseDurationms_formatDurationms h6,
    parseDurations_formatDurations h7,
    parseTime_formatTime p.Timestamp hy hmo hd hh hmi hs,
    parseInt_formatInt p.StatusCode⟩

/-- C9 witness: the round trip at a concrete ping. -/
theorem ping_field_roundTrip_witness :
    ((1000000 : Int) ∣ pingRT.DNSTime) ∧ ((1000000 : Int) ∣ pingRT.ConnectionTime)
    ∧ ((1000000 : Int) ∣ pingRT.TLSTime) ∧ ((1000000 : Int) ∣ pingRT.TTFB)
    ∧ ((1000000 : Int) ∣ pingRT.DownloadTime)
    ∧ ((1000000 : Int) ∣ pingRT.TotalResponseTime)
    ∧ ((1000000000 : Int) ∣ pingRT.CertRemainingValidity)
    ∧ pingRT.Timestamp.Year ≤ 9999 ∧ pingRT.Timestamp.Month ≤ 12
    ∧ pingRT.Timestamp.Day ≤ 31 ∧ pingRT.Timestamp.Hour ≤ 23
    ∧ pingRT.Timestamp.Minute ≤ 59 ∧ pingRT.Timestamp.Second ≤ 59
    ∧ (parseDurationms (formatDurationms pingRT.DNSTime) = some pingRT.DNSTime
      ∧ parseDurationms (formatDurationms pingRT.ConnectionTime) = some pingRT.ConnectionTime
      ∧ parseDurationms (formatDurationms pingRT.TLSTime) = some pingRT.TLSTime
      ∧ parseDurationms (formatDurationms pingRT.TTFB) = some pingRT.TTFB
      ∧ parseDurationms (formatDurationms pingRT.DownloadTime) = some pingRT.DownloadTime
      ∧ parseDurationms (formatDurationms pingRT.TotalResponseTime)
          = some pingRT.TotalResponseTime
      ∧ parseDurations (formatDurations pingRT.CertRemainingValidity)
          = some pingRT.CertRemainingValidity
      ∧ parseTime (formatTime pingRT.Timestamp) = some pingRT.Timestamp
      ∧ parseInt (formatInt pingRT.StatusCode) = some pingRT.StatusCode) :=
  ⟨by norm_num [pingRT], by norm_num [pingRT], by norm_num [pingRT], by norm_num [pingRT],
    by norm_num [pingRT], by norm_num [pingRT], by norm_num [pingRT],
    by norm_num [pingRT], by norm_num [pingRT], by norm_num [pingRT],
    by norm_num [pingRT], by norm_num [pingRT], by norm_num [pingRT],
    ping_field_roundTrip pingRT (by norm_num [pingRT]) (by norm_num [pingRT])
      (by norm_num [pingRT]) (by norm_num [pingRT]) (by norm_num [pingRT])
      (by norm_num [pingRT]) (by norm_num [pingRT]) (by norm_num [pingRT])
      (by norm_num [pingRT]) (by norm_num [pingRT]) (by norm_num [pingRT])
      (by norm_num [pingRT]) (by norm_num [pingRT])⟩

/-- C10: `Summarize` counts a result as failed exactly when its `Status`
is not `"Success"`: both the failed count and the availability treat any
other status string as a failure. -/
theorem summarizeGroup_failed_iff_not_success (u : String) (g : List Ping) (_hne : g ≠ []) :
    (summarizeGroup u g).NumberOfFailedMeasurements
        = (g.filter (fun p => !(p.Status == "Success"))).length
    ∧ (summarizeGroup u g).Availability
        = 100 * ((g.length : ℚ)
            - ((g.filter (fun p => !(p.Status == "Success"))).length : ℚ))
          / (g.length : ℚ) := by
  refine ⟨summarizeGroup_failedMeasurements u g, ?_⟩
  rw [summarizeGroup_availability]
  have hs : ((g.filter (fun p => p.Status == "Success")).length : ℚ)
      = (g.length : ℚ) - ((g.filter (fun p => !(p.Status == "Success"))).length : ℚ) := by
    have hp := filter_status_partition g
    rw [← hp]
    push_cast
    ring
  rw [hs]
  ring

/-- C10 witness: a status string that is neither `Success` nor `Failed`
counts as a failure. -/
theorem summarizeGroup_failed_iff_not_success_witness :
    ([pingE, pingI] : List Ping) ≠ []
    ∧ ((summarizeGroup "https://x.example" [pingE, pingI]).NumberOfFailedMeasurements
          = (([pingE, pingI] : List Ping).filter
              (fun p => !(p.Status == "Success"))).length
      ∧ (summarizeGroup "https://x.example" [pingE, pingI]).Availability
          = 100 * ((([pingE, pingI] : List Ping).length : ℚ)
              - ((([pingE, pingI] : List Ping).filter
                  (fun p => !(p.Status == "Success"))).length : ℚ))
            / (([pingE, pingI] : List Ping).length : ℚ)) :=
  ⟨by decide,
    summarizeGroup_failed_iff_not_success "https://x.example" [pingE, pingI] (by decide)⟩

end Httpmon
